import Mathlib

/-!
Verification of the generation-orchestration pipeline of the banano-demo
repository: the response reconciler and data-URL parser of
src/utils/openrouter.ts, the retry/timeout wrappers and batch orchestrator of
src/components/ImageGenerator.tsx, and the storyboard-breakdown extraction of
src/components/StoryboardGenerator.tsx.  JavaScript strings are modelled as
Lean strings (or lists of characters where index arithmetic matters);
asynchronous operations are modelled by explicit outcome oracles; the React
state cell holding the failed-id set is modelled by explicit state passing
that mirrors the closure the source code actually reads from.
-/

set_option maxRecDepth 8000

namespace Banano

/-! ## JavaScript string primitives -/

/-- Model of the JS slice with arguments 0 and n on a string: the first n
characters. -/
def jsSlice0 (s : String) (n : Nat) : String :=
  String.mk (s.data.take n)

/-- The base64 wrapping applied throughout generateImage in
src/utils/openrouter.ts: data:image/png;base64, followed by the value. -/
def wrapB64 (s : String) : String :=
  "data:image/png;base64," ++ s

/-- Model of the JS String.startsWith check. -/
def startsWithStr (s p : String) : Bool :=
  p.data.isPrefixOf s.data

/-- Occurrence of sub as a contiguous run inside s, on character lists. -/
def containsSubChars (sub : List Char) : List Char → Bool
  | [] => sub.isPrefixOf []
  | c :: t => sub.isPrefixOf (c :: t) || containsSubChars sub t

/-- Model of the JS String.includes check. -/
def jsIncludes (s sub : String) : Bool :=
  containsSubChars sub.data s.data

/-- Whitespace recognised by the JS trim. -/
def isJsWs (c : Char) : Bool :=
  c == ' ' || c == '\n' || c == '\t' || c == '\r'

/-- Model of the JS String.trim. -/
def jsTrim (s : String) : String :=
  String.mk (((s.data.dropWhile isJsWs).reverse.dropWhile isJsWs).reverse)

/-- Truthiness of an optional JS string: undefined and the empty string are
falsy. -/
def jsTruthyOpt (o : Option String) : Bool :=
  match o with
  | some s => !(s == "")
  | none => false

/-- Model of the JS a || b chain on optional strings, where undefined and the
empty string are falsy.  The residual value of an all-falsy chain is only ever
fed into checks that treat the empty string and undefined alike, so both are
collapsed to none here. -/
def jsOrStr (a b : Option String) : Option String :=
  match a with
  | some s => if s == "" then b else some s
  | none => b

/-! ## Response reconciler (src/utils/openrouter.ts, generateImage lines
195-292)

The envelope is modelled by the exact shapes the code probes: a top-level
images array, choices[0].message.images, and choices[0].message.content that
is a string, an array of typed parts, some other object, or absent. -/

/-- An image_url field can be a bare string or an object with an optional url
field (the code handles both). -/
inductive ImageUrlField where
  | str (s : String)
  | obj (url : Option String)
deriving DecidableEq

/-- One element of a top-level images array or of message.images. -/
structure ImageEntry where
  image_url : Option ImageUrlField
  b64_json : Option String
deriving DecidableEq

/-- One element of a multimodal content array. -/
structure ContentPart where
  type : Option String
  text : Option String
  image_url : Option ImageUrlField
  b64_json : Option String
  image_base64 : Option String
  data : Option String
deriving DecidableEq

/-- The content field of choices[0].message: a string, an array of parts,
some other object, or null/undefined (which the code coalesces to the empty
string). -/
inductive MessageContent where
  | str (s : String)
  | parts (l : List ContentPart)
  | other
  | nullish
deriving DecidableEq

/-- The message of one choice. -/
structure ChatMessage where
  content : MessageContent
  images : Option (List ImageEntry)
deriving DecidableEq

/-- One element of the choices array. -/
structure Choice where
  message : ChatMessage
deriving DecidableEq

/-- The raw response envelope, with the fields generateImage probes. -/
structure Envelope where
  images : Option (List ImageEntry)
  choices : List Choice
deriving DecidableEq

/-- The url candidate drawn from an images-array entry, following
first?.image_url?.url, falling back to first?.image_url itself when that is
a bare string. -/
def entryUrl (e : ImageEntry) : Option String :=
  match e.image_url with
  | some (ImageUrlField.obj u) => u
  | some (ImageUrlField.str s) => some s
  | none => none

/-- The accepted-url test: startsWith(data:image) or startsWith(http). -/
def isHttpOrDataImage (u : String) : Bool :=
  startsWithStr u "data:image" || startsWithStr u "http"

/-- The b64_json fallback of the images-array branches: wrap when longer than
1000 characters. -/
def b64FromEntry (e : ImageEntry) : Option String :=
  match e.b64_json with
  | some b => if 1000 < b.length then some (wrapB64 b) else none
  | none => none

/-- Extraction from the first entry of an images array (used verbatim by the
top-level images branch and the message.images branch, whose source bodies are
identical): accept a prefixed url, wrap a url longer than 1000 characters,
else fall back to b64_json. -/
def extractFromEntry (e : ImageEntry) : Option String :=
  match entryUrl e with
  | some u =>
      if isHttpOrDataImage u then some u
      else if 1000 < u.length then some (wrapB64 u)
      else b64FromEntry e
  | none => b64FromEntry e

/-- The url candidate of a content part, following part?.image_url?.url ??
part?.image_url (an object without url yields the object itself, which then
fails the string test). -/
def partUrl (p : ContentPart) : Option String :=
  match p.image_url with
  | some (ImageUrlField.obj u) => u
  | some (ImageUrlField.str s) => some s
  | none => none

/-- The b64 candidate chain of a content part: part?.b64_json ||
part?.image_base64 || part?.data. -/
def partB64 (p : ContentPart) : Option String :=
  jsOrStr p.b64_json (jsOrStr p.image_base64 p.data)

/-- The image-like part types recognised by the array branch. -/
def isImagePartType (t : Option String) : Bool :=
  match t with
  | some s => s == "image_url" || s == "output_image" || s == "image"
  | none => false

/-- The b64 acceptance step of a content part: wrap when longer than 1000
characters. -/
def extractB64FromPart (p : ContentPart) : Option String :=
  match partB64 p with
  | some b => if 1000 < b.length then some (wrapB64 b) else none
  | none => none

/-- Extraction from one content part: an image-like part yields its url when
prefixed, else its wrapped long b64 candidate; the url is never wrapped
here. -/
def extractFromPart (p : ContentPart) : Option String :=
  if isImagePartType p.type then
    match partUrl p with
    | some u => if isHttpOrDataImage u then some u else extractB64FromPart p
    | none => extractB64FromPart p
  else none

/-- The for-loop over content parts: first extracted image wins. -/
def extractFromParts : List ContentPart → Option String
  | [] => none
  | p :: rest =>
      match extractFromPart p with
      | some u => some u
      | none => extractFromParts rest

/-- The diagnostic preview of the array branch:
content.map(p => p?.text).filter(Boolean).join(newline).slice(0, 200). -/
def partsTextPreview (l : List ContentPart) : String :=
  jsSlice0 (String.intercalate "\n" ((l.filterMap (fun p => p.text)).filter
    (fun s => s != ""))) 200

/-- The three failure sites of generateImage: the text-only string content
throw (with a 200-character preview), the imageless parts-array throw (with a
200-character preview of the text parts), and the final unrecognised-shape
throw. -/
inductive GenImageError where
  | noImageText (preview : String)
  | noImageParts (preview : String)
  | unrecognized
deriving DecidableEq

/-- Decidable equality of reconciler results, used by concrete
evaluations. -/
instance {e a : Type} [DecidableEq e] [DecidableEq a] :
    DecidableEq (Except e a) := fun x y =>
  match x, y with
  | Except.ok v, Except.ok w =>
    if h : v = w then Decidable.isTrue (by rw [h])
    else Decidable.isFalse (fun hh => h (Except.ok.inj hh))
  | Except.error v, Except.error w =>
    if h : v = w then Decidable.isTrue (by rw [h])
    else Decidable.isFalse (fun hh => h (Except.error.inj hh))
  | Except.ok _, Except.error _ =>
    Decidable.isFalse (fun hh => Except.noConfusion hh)
  | Except.error _, Except.ok _ =>
    Decidable.isFalse (fun hh => Except.noConfusion hh)

/-- The preview carried by a generateImage failure, when there is one. -/
def errorPreview : GenImageError → Option String
  | GenImageError.noImageText p => some p
  | GenImageError.noImageParts p => some p
  | GenImageError.unrecognized => none

/-- The coalesced content, following data?.choices?.[0]?.message?.content ??
the empty string. -/
def contentOf (e : Envelope) : MessageContent :=
  match e.choices.head? with
  | some c =>
      match c.message.content with
      | MessageContent.nullish => MessageContent.str ""
      | c' => c'
  | none => MessageContent.str ""

/-- The message.images array probed by the second rule. -/
def messageImages (e : Envelope) : Option (List ImageEntry) :=
  e.choices.head?.bind (fun c => c.message.images)

/-- Rules 3 and 4: the string branch (verbatim when it contains data:image,
wrapped when it contains base64 and is longer than 1000 characters, otherwise
a text-only failure) and the parts-array branch. -/
def reconcileContent (c : MessageContent) : Except GenImageError String :=
  match c with
  | MessageContent.str s =>
      if jsIncludes s "data:image" then Except.ok s
      else if jsIncludes s "base64" && decide (1000 < s.length) then
        Except.ok (wrapB64 s)
      else Except.error (GenImageError.noImageText (jsSlice0 s 200))
  | MessageContent.parts l =>
      match extractFromParts l with
      | some u => Except.ok u
      | none => Except.error (GenImageError.noImageParts (partsTextPreview l))
  | MessageContent.other => Except.error GenImageError.unrecognized
  | MessageContent.nullish =>
      Except.error (GenImageError.noImageText (jsSlice0 "" 200))

/-- Rule 2 (choices[0].message.images) followed by the content rules. -/
def reconcileFromMessage (e : Envelope) : Except GenImageError String :=
  match messageImages e with
  | some (first :: _) =>
      match extractFromEntry first with
      | some u => Except.ok u
      | none => reconcileContent (contentOf e)
  | _ => reconcileContent (contentOf e)

/-- The reconciliation step of generateImage (src/utils/openrouter.ts lines
195-292): top-level images, then message.images, then the content rules. -/
def generateImageReconcile (e : Envelope) : Except GenImageError String :=
  match e.images with
  | some (first :: _) =>
      match extractFromEntry first with
      | some u => Except.ok u
      | none => reconcileFromMessage e
  | _ => reconcileFromMessage e

/-- A well-formed reference as the code actually guarantees it: a data:image
or http prefix, or (in the verbatim string branch) a string containing
data:image somewhere. -/
def goodImageRef (s : String) : Bool :=
  isHttpOrDataImage s || jsIncludes s "data:image"

/-! ## Data-URL parsing (src/utils/openrouter.ts, getBase64FromImageUrl)

Modelled on character lists with JS index semantics: indexOf yields -1 when
the character is absent, and substring clamps its arguments to the string
bounds and swaps them when out of order. -/

/-- First index of a character in a list. -/
def firstIdx (c : Char) : List Char → Option Nat
  | [] => none
  | d :: t => if d == c then some 0 else (firstIdx c t).map Nat.succ

/-- Model of the JS String.indexOf for a single character. -/
def jsIndexOf (s : List Char) (c : Char) : Int :=
  match firstIdx c s with
  | some n => (n : Int)
  | none => -1

/-- The argument clamping of the JS String.substring. -/
def jsClamp (len : Nat) (i : Int) : Nat :=
  (max 0 (min i (len : Int))).toNat

/-- Model of the JS String.substring with two arguments. -/
def jsSubstring (s : List Char) (a b : Int) : List Char :=
  let a' := jsClamp s.length a
  let b' := jsClamp s.length b
  if a' ≤ b' then (s.take b').drop a' else (s.take a').drop b'

/-- Result of getBase64FromImageUrl: a data URL is parsed directly, anything
else requires a network fetch (modelled abstractly). -/
inductive FetchResult where
  | parsed (base64 : List Char) (mimeType : List Char)
  | fetchNeeded (url : List Char)
deriving DecidableEq

/-- Model of getBase64FromImageUrl (src/utils/openrouter.ts lines 298-306):
for a data: URL the mime type is the text between index 5 and the first
semicolon and the base64 payload is the text after the first comma; any other
URL is fetched. -/
def getBase64FromImageUrl (url : List Char) : FetchResult :=
  if "data:".data.isPrefixOf url then
    FetchResult.parsed
      (jsSubstring url (jsIndexOf url ',' + 1) (url.length : Int))
      (jsSubstring url 5 (jsIndexOf url ';'))
  else FetchResult.fetchNeeded url

/-! ## Data model (src/types.ts) -/

/-- A storyboard scene (src/types.ts).  Identity is the id field. -/
structure Storyboard where
  id : String
  sceneNumber : Nat
  description : String
  characterAction : String
  setting : String
  mood : String
deriving DecidableEq

/-- A generated image (src/types.ts).  The generatedAt timestamp and the
Date.now() component of the id are not modelled: no claim observes wall-clock
time. -/
structure GeneratedImage where
  id : String
  storyboardId : String
  imageUrl : String
  prompt : String
deriving DecidableEq

/-- The record generateSingleImage builds on success, with the back-reference
storyboardId := storyboard.id.  The prompt used for the batch bookkeeping
claims is irrelevant and left empty; the prompt construction itself is
modelled by generateSingleImageRequest. -/
def mkImage (sb : Storyboard) (url : String) : GeneratedImage :=
  { id := "image-" ++ sb.id, storyboardId := sb.id, imageUrl := url,
    prompt := "" }

/-! ## Single-item generator (src/components/ImageGenerator.tsx,
generateSingleImage lines 66-128) -/

/-- The fixed scene prompt template of generateSingleImage, with the four
scene fields interpolated. -/
def scenePrompt (sb : Storyboard) : String :=
  "\n基于提供的角色图片，生成一个新的场景图片。请尽量保持角色的外观特征尤其是绘图风格一致，如无法确定也需输出插画。\n\n场景信息：\n- 场景描述: "
    ++ sb.description ++ "\n- 角色动作: " ++ sb.characterAction
    ++ "\n- 环境设定: " ++ sb.setting ++ "\n- 情感氛围: " ++ sb.mood
    ++ "\n\n艺术风格要求：\n- 保持角色特征的一致性\n- 插画风格，色彩丰富\n- 适合儿童故事书的视觉效果\n- 清晰的构图和良好的光影效果\n\n请确保生成的图片中角色的外观与提供的参考图片保持高度一致。\n"

/-- Resolution of the character image to base64: a data: URL is parsed by
getBase64FromImageUrl; a blob or http URL goes through fetch plus FileReader,
modelled by an oracle. -/
def resolveReferenceBase64 (fetchOracle : String → String) (url : String) :
    String :=
  match getBase64FromImageUrl url.data with
  | FetchResult.parsed b64 _ => String.mk b64
  | FetchResult.fetchNeeded _ => fetchOracle url

/-- What generateSingleImage hands to generateImage: the final prompt and the
optional reference image base64. -/
structure ImageRequest where
  finalPrompt : String
  referenceImageBase64 : Option String
deriving DecidableEq

/-- Model of the prompt/reference construction of generateSingleImage
(src/components/ImageGenerator.tsx lines 88-115): with a character image the
image is resolved to base64 and the prompt is the bare template; without one
the prompt is augmented with an identity hint built from the trimmed character
prompt, else from the first 300 characters of the story, else a generic
consistency instruction. -/
def generateSingleImageRequest (fetchOracle : String → String)
    (characterImage characterPrompt : Option String) (story : String)
    (sb : Storyboard) : ImageRequest :=
  let prompt := scenePrompt sb
  let inferredIdentity :=
    if !(jsTruthyOpt characterImage) && !(jsTruthyOpt characterPrompt)
        && !(story == "") then
      jsSlice0 story 300
    else ""
  if jsTruthyOpt characterImage then
    { finalPrompt := prompt,
      referenceImageBase64 :=
        some (resolveReferenceBase64 fetchOracle (characterImage.getD "")) }
  else
    let trimmed :=
      match characterPrompt with
      | some s => jsTrim s
      | none => ""
    let identity := if trimmed == "" then inferredIdentity else trimmed
    let hint :=
      if identity == "" then
        "If a character identity is implied, keep it consistent across scenes."
      else
        "Use this as the main character identity: " ++ identity ++
          ". Keep the identity consistent across all scenes."
    { finalPrompt := prompt ++ "\n\n" ++ hint, referenceImageBase64 := none }

/-! ## Timeout race and retry loop (src/components/ImageGenerator.tsx,
withTimeout lines 28-40 and generateSingleImageWithRetry lines 131-153)

An asynchronous attempt is modelled by its observable behaviour: it settles
(resolves or rejects) at some time, or never settles.  withTimeout races that
behaviour against a timer; the finally clause clears the timer on every
path. -/

/-- Observable behaviour of one asynchronous attempt. -/
inductive OpBehavior (T : Type) where
  | resolves (t : Nat) (v : T)
  | rejects (t : Nat) (e : String)
  | never

/-- When the behaviour settles, if ever. -/
def settleTime {T : Type} : OpBehavior T → Option Nat
  | OpBehavior.resolves t _ => some t
  | OpBehavior.rejects t _ => some t
  | OpBehavior.never => none

/-- The timeout rejection message of withTimeout. -/
def timeoutMessage : String := "请求超时，请稍后重试"

/-- Outcome of one withTimeout call: the settled result of the race, and
whether the timer was released. -/
structure TimeoutRun (T : Type) where
  result : Except String T
  timerCleared : Bool

/-- Model of withTimeout: the operation wins the race exactly when it settles
strictly before the deadline; otherwise the timer rejection wins.  The finally
clause runs clearTimeout on the completion path and the timeout path alike, so
timerCleared holds on every branch. -/
def withTimeout {T : Type} (b : OpBehavior T) (ms : Nat) : TimeoutRun T :=
  match b with
  | OpBehavior.resolves t v =>
      if t < ms then { result := Except.ok v, timerCleared := true }
      else { result := Except.error timeoutMessage, timerCleared := true }
  | OpBehavior.rejects t e =>
      if t < ms then { result := Except.error e, timerCleared := true }
      else { result := Except.error timeoutMessage, timerCleared := true }
  | OpBehavior.never =>
      { result := Except.error timeoutMessage, timerCleared := true }

/-- Trace of one generateSingleImageWithRetry run: final outcome, number of
operation invocations, and the backoff delays slept between attempts. -/
structure RetryTrace (T : Type) where
  result : Except String T
  calls : Nat
  delays : List Nat

/-- The retry loop body, indexed by the remaining retries
(maxRetries - attempt): on failure with retries left, sleep
baseDelayMs * 2 ^ attempt + jitter and try again; with none left, propagate
the error. -/
def retryAux {T : Type} (op : Nat → Except String T) (jitter : Nat → Nat)
    (baseDelayMs : Nat) : Nat → Nat → RetryTrace T
  | 0, attempt =>
      match op attempt with
      | Except.ok v => { result := Except.ok v, calls := 1, delays := [] }
      | Except.error e =>
          { result := Except.error e, calls := 1, delays := [] }
  | Nat.succ r, attempt =>
      match op attempt with
      | Except.ok v => { result := Except.ok v, calls := 1, delays := [] }
      | Except.error _ =>
          let rest := retryAux op jitter baseDelayMs r (attempt + 1)
          { result := rest.result, calls := rest.calls + 1,
            delays := (baseDelayMs * 2 ^ attempt + jitter attempt)
              :: rest.delays }

/-- Model of generateSingleImageWithRetry: attempts are numbered from 0; the
while-true loop exits by returning a success or by rethrowing once
attempt >= maxRetries.  The n-th invocation outcome is op n and the random
jitter of the n-th backoff is jitter n. -/
def generateSingleImageWithRetry {T : Type} (op : Nat → Except String T)
    (jitter : Nat → Nat) (maxRetries baseDelayMs : Nat) : RetryTrace T :=
  retryAux op jitter baseDelayMs maxRetries 0

/-- One retry-loop attempt as the source composes it: the operation behaviour
of attempt n raced against the fixed 35-second deadline. -/
def attemptWithTimeout {T : Type} (behaviors : Nat → OpBehavior T) (n : Nat) :
    Except String T :=
  (withTimeout (behaviors n) 35000).result

/-- generateSingleImageWithRetry with each attempt raced against the 35-second
per-attempt deadline, as called at line 141. -/
def generateSingleImageWithRetryTimed {T : Type}
    (behaviors : Nat → OpBehavior T) (jitter : Nat → Nat)
    (maxRetries baseDelayMs : Nat) : RetryTrace T :=
  retryAux (attemptWithTimeout behaviors) jitter baseDelayMs maxRetries 0

/-! ## Batch orchestrator (src/components/ImageGenerator.tsx,
generateAllImages lines 156-257, regenerateImage lines 260-293,
retryAllFailed lines 296-333)

The failed-id set is a JS Set of storyboard ids, modelled as a duplicate-free
list.  Crucially, every setFailedIds update inside generateAllImages builds
its new set from the failedIds binding captured by the callback closure (the
useCallback dependency list omits failedIds), not from the current state; the
model therefore threads that stale snapshot separately from the state cell. -/

/-- JS Set.add on an id list. -/
def setAdd (s : List String) (x : String) : List String :=
  if x ∈ s then s else s ++ [x]

/-- JS Set.delete on an id list. -/
def setDelete (s : List String) (x : String) : List String :=
  s.filter (fun y => y != x)

/-- The orchestrator-visible state of one generateAllImages run: the local
result accumulator, the local list of first-pass failures, and the failedIds
React state cell as last written. -/
structure BatchState where
  results : List GeneratedImage
  failedStoryboards : List Storyboard
  failedState : List String
deriving DecidableEq

/-- One first-pass iteration (lines 184-213): on success push the image and,
only if the id is in the stale snapshot, write snapshot-minus-id to the state
cell; on failure record the storyboard and write snapshot-plus-id to the
state cell. -/
def pass1Step (stale : List String) (gen1 : Storyboard → Option String)
    (st : BatchState) (sb : Storyboard) : BatchState :=
  match gen1 sb with
  | some url =>
      { st with results := st.results ++ [mkImage sb url]
                failedState :=
                  if sb.id ∈ stale then setDelete stale sb.id
                  else st.failedState }
  | none =>
      { st with failedStoryboards := st.failedStoryboards ++ [sb]
                failedState := setAdd stale sb.id }

/-- One consolidated-retry iteration (lines 217-238): on success push the
image (no upsert) and, only if the id is in the stale snapshot, write
snapshot-minus-id; on failure write snapshot-plus-id. -/
def pass2Step (stale : List String) (gen2 : Storyboard → Option String)
    (st : BatchState) (sb : Storyboard) : BatchState :=
  match gen2 sb with
  | some url =>
      { st with results := st.results ++ [mkImage sb url]
                failedState :=
                  if sb.id ∈ stale then setDelete stale sb.id
                  else st.failedState }
  | none => { st with failedState := setAdd stale sb.id }

/-- Model of one generateAllImages run over its per-scene outcome oracles:
the result list is reset, the first pass walks the storyboards in order, and
the second pass walks exactly the first-pass failures.  stale is the failedIds
snapshot captured by the callback closure. -/
def generateAllImagesModel (stale : List String)
    (gen1 gen2 : Storyboard → Option String) (storyboards : List Storyboard) :
    BatchState :=
  let st1 := storyboards.foldl (pass1Step stale gen1)
    { results := [], failedStoryboards := [], failedState := stale }
  st1.failedStoryboards.foldl (pass2Step stale gen2) st1

/-- The upsert used by regenerateImage (lines 270-276) and retryAllFailed
(lines 313-318): findIndex by storyboardId, replace in place when found,
append otherwise. -/
def upsertImage (images : List GeneratedImage) (img : GeneratedImage) :
    List GeneratedImage :=
  match images.findIdx? (fun i => i.storyboardId == img.storyboardId) with
  | some idx => images.set idx img
  | none => images ++ [img]

/-- Model of the regenerateImage success path (lines 269-283): upsert the new
image and delete the id from the (freshly captured) failed set. -/
def regenerateImageModel (generatedImages : List GeneratedImage)
    (failedIds : List String) (sb : Storyboard) (url : String) :
    List GeneratedImage × List String :=
  (upsertImage generatedImages (mkImage sb url),
   if sb.id ∈ failedIds then setDelete failedIds sb.id else failedIds)

/-- Model of retryAllFailed (lines 296-333): walk the storyboards whose ids
are in the failed set, upserting successes into a local copy of the result
list and maintaining a local copy of the failed set, both committed to
state. -/
def retryAllFailedModel (storyboards : List Storyboard)
    (failedIds : List String) (generatedImages : List GeneratedImage)
    (gen : Storyboard → Option String) :
    List GeneratedImage × List String :=
  let targets := storyboards.filter (fun sb => sb.id ∈ failedIds)
  targets.foldl
    (fun (st : List GeneratedImage × List String) sb =>
      match gen sb with
      | some url =>
          (upsertImage st.1 (mkImage sb url),
           if sb.id ∈ st.2 then setDelete st.2 sb.id else st.2)
      | none => (st.1, setAdd st.2 sb.id))
    (generatedImages, failedIds)

/-! ## Storyboard-breakdown extraction
(src/components/StoryboardGenerator.tsx, generateStoryboards lines 70-87)

The code matches the regex consisting of an opening brace, any characters,
and a closing brace against the model reply — a greedy match running from the
first opening brace to the last closing brace — and feeds the match to
JSON.parse.  JSON.parse is modelled by a standard recursive-descent JSON
reader (fuelled by the input length; the unicode escape form is not needed by
any claim and is rejected). -/

/-- The opening curly brace character. -/
def lbraceChar : Char := Char.ofNat 123

/-- The closing curly brace character. -/
def rbraceChar : Char := Char.ofNat 125

/-- JSON values.  Numbers keep their literal spelling: no claim inspects
numeric magnitude. -/
inductive Json where
  | null
  | bool (b : Bool)
  | num (lit : String)
  | str (s : String)
  | arr (elems : List Json)
  | obj (members : List (String × Json))

/-- JSON insignificant whitespace (same character class as the JS trim
model). -/
def skipWsL (s : List Char) : List Char :=
  s.dropWhile isJsWs

/-- The character denoted by a single-character JSON escape. -/
def escChar (e : Char) : Option Char :=
  if e == '"' then some '"'
  else if e == '\\' then some '\\'
  else if e == '/' then some '/'
  else if e == 'n' then some '\n'
  else if e == 't' then some '\t'
  else if e == 'r' then some '\r'
  else if e == 'b' then some (Char.ofNat 8)
  else if e == 'f' then some (Char.ofNat 12)
  else none

/-- Body of a JSON string after its opening quote: content plus the remainder
after the closing quote. -/
def parseStringBody : List Char → Option (List Char × List Char)
  | [] => none
  | c :: rest =>
    if c == '"' then some ([], rest)
    else if c == '\\' then
      match rest with
      | [] => none
      | e :: rest2 =>
        match escChar e, parseStringBody rest2 with
        | some ec, some pr => some (ec :: pr.1, pr.2)
        | _, _ => none
    else
      match parseStringBody rest with
      | some pr => some (c :: pr.1, pr.2)
      | none => none

/-- A maximal run of decimal digits and the remainder. -/
def spanDigits (s : List Char) : List Char × List Char :=
  (s.takeWhile Char.isDigit, s.dropWhile Char.isDigit)

/-- A JSON numeric literal: optional minus, digits, optional fraction,
optional exponent. -/
def parseNumberLit (s : List Char) : Option (List Char × List Char) :=
  let sign : List Char × List Char :=
    match s with
    | c :: t => if c == '-' then ([c], t) else ([], s)
    | [] => ([], s)
  let ip := spanDigits sign.2
  if ip.1.isEmpty then none
  else
    let frac : List Char × List Char :=
      match ip.2 with
      | c :: t =>
        if c == '.' then
          let ds := spanDigits t
          if ds.1.isEmpty then ([], ip.2) else (c :: ds.1, ds.2)
        else ([], ip.2)
      | [] => ([], ip.2)
    let expn : List Char × List Char :=
      match frac.2 with
      | c :: t =>
        if c == 'e' || c == 'E' then
          let signed : List Char × List Char :=
            match t with
            | d :: t2 => if d == '+' || d == '-' then ([d], t2) else ([], t)
            | [] => ([], t)
          let ds := spanDigits signed.2
          if ds.1.isEmpty then ([], frac.2)
          else (c :: (signed.1 ++ ds.1), ds.2)
        else ([], frac.2)
      | [] => ([], frac.2)
    some (sign.1 ++ ip.1 ++ frac.1 ++ expn.1, expn.2)

mutual

/-- One JSON value and the remainder, with fuel bounding recursion depth. -/
def parseValue : Nat → List Char → Option (Json × List Char)
  | 0, _ => none
  | Nat.succ f, s =>
    match skipWsL s with
    | [] => none
    | c :: t =>
      if c == '"' then
        match parseStringBody t with
        | some pr => some (Json.str (String.mk pr.1), pr.2)
        | none => none
      else if c == lbraceChar then
        match skipWsL t with
        | [] => none
        | d :: t2 =>
          if d == rbraceChar then some (Json.obj [], t2)
          else
            match parseMembers f (d :: t2) with
            | some pr => some (Json.obj pr.1, pr.2)
            | none => none
      else if c == '[' then
        match skipWsL t with
        | [] => none
        | d :: t2 =>
          if d == ']' then some (Json.arr [], t2)
          else
            match parseElems f (d :: t2) with
            | some pr => some (Json.arr pr.1, pr.2)
            | none => none
      else if c == 'n' then
        match t with
        | 'u' :: 'l' :: 'l' :: r => some (Json.null, r)
        | _ => none
      else if c == 't' then
        match t with
        | 'r' :: 'u' :: 'e' :: r => some (Json.bool true, r)
        | _ => none
      else if c == 'f' then
        match t with
        | 'a' :: 'l' :: 's' :: 'e' :: r => some (Json.bool false, r)
        | _ => none
      else
        match parseNumberLit (c :: t) with
        | some pr => some (Json.num (String.mk pr.1), pr.2)
        | none => none

/-- Comma-separated array elements up to the closing bracket. -/
def parseElems : Nat → List Char → Option (List Json × List Char)
  | 0, _ => none
  | Nat.succ f, s =>
    match parseValue f s with
    | some pr =>
      match skipWsL pr.2 with
      | [] => none
      | c :: t =>
        if c == ',' then
          match parseElems f t with
          | some pr2 => some (pr.1 :: pr2.1, pr2.2)
          | none => none
        else if c == ']' then some ([pr.1], t)
        else none
    | none => none

/-- Comma-separated object members up to the closing brace. -/
def parseMembers : Nat → List Char → Option (List (String × Json) × List Char)
  | 0, _ => none
  | Nat.succ f, s =>
    match skipWsL s with
    | [] => none
    | c :: t =>
      if c == '"' then
        match parseStringBody t with
        | some key =>
          match skipWsL key.2 with
          | [] => none
          | d :: t2 =>
            if d == ':' then
              match parseValue f t2 with
              | some v =>
                match skipWsL v.2 with
                | [] => none
                | e :: t3 =>
                  if e == ',' then
                    match parseMembers f t3 with
                    | some pr2 =>
                        some ((String.mk key.1, v.1) :: pr2.1, pr2.2)
                    | none => none
                  else if e == rbraceChar then
                    some ([(String.mk key.1, v.1)], t3)
                  else none
              | none => none
            else none
        | none => none
      else none

end

/-- Model of JSON.parse: a single JSON value with nothing but whitespace
around it. -/
def jsonParseChars (s : List Char) : Option Json :=
  match parseValue (s.length + 1) s with
  | some pr => if (skipWsL pr.2).isEmpty then some pr.1 else none
  | none => none

/-- Object member lookup with the JS duplicate-key rule (last occurrence
wins). -/
def jsObjGetLast (kvs : List (String × Json)) (key : String) : Option Json :=
  ((kvs.filter (fun kv => kv.1 == key)).getLast?).map (fun kv => kv.2)

/-- The storyboards array of the parsed object, when present. -/
def storyboardsField (j : Json) : Option (List Json) :=
  match j with
  | Json.obj kvs =>
    match jsObjGetLast kvs "storyboards" with
    | some (Json.arr l) => some l
    | _ => none
  | _ => none

/-- The greedy block the source regex extracts: from the first opening brace
to the last closing brace of the text, provided the latter follows the
former. -/
def extractJsonBlock (s : List Char) : Option (List Char) :=
  match s.dropWhile (fun c => c != lbraceChar) with
  | [] => none
  | c :: rest =>
    match rest.reverse.dropWhile (fun d => d != rbraceChar) with
    | [] => none
    | r => some (c :: r.reverse)

/-- Model of the parse-and-validate step of generateStoryboards
(src/components/StoryboardGenerator.tsx lines 70-87): extract the greedy
brace block, JSON-parse it (any failure up to here is rethrown as the
AI-response-format error), then require an array storyboards field. -/
def generateStoryboardsExtract (text : String) : Except String (List Json) :=
  match extractJsonBlock text.data with
  | none => Except.error "AI响应格式错误，请重试"
  | some block =>
    match jsonParseChars block with
    | none => Except.error "AI响应格式错误，请重试"
    | some j =>
      match storyboardsField j with
      | some l => Except.ok l
      | none => Except.error "AI响应格式不正确"

/-- Depth scan collecting characters of the first balanced brace block. -/
def balancedScan : Nat → List Char → List Char → Option (List Char)
  | _, _, [] => none
  | depth, acc, c :: rest =>
    if c == lbraceChar then balancedScan (depth + 1) (c :: acc) rest
    else if c == rbraceChar then
      if depth == 1 then some (c :: acc).reverse
      else balancedScan (depth - 1) (c :: acc) rest
    else balancedScan depth (c :: acc) rest

/-- Modelled from the spec (section 6): the first balanced brace block of the
text, which the spec says the caller extracts before parsing.  Kept separate
from extractJsonBlock, the extraction the source actually performs, so the
two can be compared. -/
def specFirstBalancedBlock (s : List Char) : Option (List Char) :=
  match s.dropWhile (fun c => c != lbraceChar) with
  | [] => none
  | t => balancedScan 0 [] t

/-- The spec-described pipeline: first balanced block, then the same parse
and validation. -/
def specStoryboardsExtract (text : String) : Except String (List Json) :=
  match specFirstBalancedBlock text.data with
  | none => Except.error "AI响应格式错误，请重试"
  | some block =>
    match jsonParseChars block with
    | none => Except.error "AI响应格式错误，请重试"
    | some j =>
      match storyboardsField j with
      | some l => Except.ok l
      | none => Except.error "AI响应格式不正确"

/-! ## Concrete instances used by witnesses and counterexamples -/

/-- The refusal text of the end-to-end scenario in the spec. -/
def sorryContent : String := "Sorry, I can\x27t generate that."

/-- Envelope whose only payload is the refusal text. -/
def envSorry : Envelope :=
  { images := none,
    choices := [{ message :=
      { content := MessageContent.str sorryContent, images := none } }] }

/-- Envelope whose string content embeds a data URI after a text prefix. -/
def envC1 : Envelope :=
  { images := none,
    choices := [{ message :=
      { content := MessageContent.str "Result: data:image/png;base64,AAAA",
        images := none } }] }

/-- Envelope with a well-formed top-level images entry. -/
def envOk : Envelope :=
  ⟨some [⟨some (ImageUrlField.obj (some "data:image/png;base64,XYZ")), none⟩],
   []⟩

/-- A 1001-character opaque string with no recognizable prefix and no base64
substring. -/
def longAs : String := String.mk (List.replicate 1001 'a')

/-- Envelope whose string content is the long opaque string. -/
def envC2 : Envelope :=
  { images := none,
    choices := [{ message :=
      { content := MessageContent.str longAs, images := none } }] }

/-- A concrete storyboard. -/
def sbOne : Storyboard :=
  { id := "s1", sceneNumber := 1, description := "d", characterAction := "a",
    setting := "e", mood := "m" }

/-- A second storyboard. -/
def sbTwo : Storyboard :=
  { id := "s2", sceneNumber := 2, description := "d", characterAction := "a",
    setting := "e", mood := "m" }

/-- An existing generated image for sbOne. -/
def imgOld : GeneratedImage := mkImage sbOne "http://old.png"

/-- A 500-character story. -/
def story500 : String := String.mk (List.replicate 500 'x')

/-- A model reply embedding a storyboards object in prose, with a second
brace pair later in the text. -/
def textC8 : String :=
  "Here \x7b\"storyboards\":[]\x7d tail \x7b\x7d"

/-! ## Helper lemmas -/

theorem isPrefixOf_append_self (l rest : List Char) :
    l.isPrefixOf (l ++ rest) = true := by
  simp

theorem wrapB64_good (s : String) : isHttpOrDataImage (wrapB64 s) = true := by
  have h : "data:image/png;base64,".data
      = "data:image".data ++ "/png;base64,".data := by decide
  unfold isHttpOrDataImage startsWithStr wrapB64
  rw [String.data_append, h, List.append_assoc]
  simp

theorem goodRef_of_isHttp {u : String} (h : isHttpOrDataImage u = true) :
    goodImageRef u = true := by
  unfold goodImageRef
  rw [h]
  rfl

theorem goodRef_of_includes {u : String}
    (h : jsIncludes u "data:image" = true) : goodImageRef u = true := by
  unfold goodImageRef
  rw [h]
  simp

theorem b64FromEntry_good (e : ImageEntry) (u : String)
    (h : b64FromEntry e = some u) : goodImageRef u = true := by
  unfold b64FromEntry at h
  split at h
  · split at h
    · cases h
      exact goodRef_of_isHttp (wrapB64_good _)
    · cases h
  · cases h

theorem extractFromEntry_good (e : ImageEntry) (u : String)
    (h : extractFromEntry e = some u) : goodImageRef u = true := by
  unfold extractFromEntry at h
  split at h
  · split at h
    · rename_i hv
      cases h
      exact goodRef_of_isHttp hv
    · split at h
      · cases h
        exact goodRef_of_isHttp (wrapB64_good _)
      · exact b64FromEntry_good e u h
  · exact b64FromEntry_good e u h

theorem extractB64FromPart_good (p : ContentPart) (u : String)
    (h : extractB64FromPart p = some u) : goodImageRef u = true := by
  unfold extractB64FromPart at h
  split at h
  · split at h
    · cases h
      exact goodRef_of_isHttp (wrapB64_good _)
    · cases h
  · cases h

theorem extractFromPart_good (p : ContentPart) (u : String)
    (h : extractFromPart p = some u) : goodImageRef u = true := by
  unfold extractFromPart at h
  split at h
  · split at h
    · split at h
      · rename_i hv
        cases h
        exact goodRef_of_isHttp hv
      · exact extractB64FromPart_good p u h
    · exact extractB64FromPart_good p u h
  · cases h

theorem extractFromParts_good (l : List ContentPart) (u : String)
    (h : extractFromParts l = some u) : goodImageRef u = true := by
  induction l with
  | nil => cases h
  | cons p rest ih =>
    unfold extractFromParts at h
    split at h
    · rename_i v hp
      cases h
      exact extractFromPart_good p _ hp
    · exact ih h

theorem reconcileContent_good (c : MessageContent) (s : String)
    (h : reconcileContent c = Except.ok s) : goodImageRef s = true := by
  unfold reconcileContent at h
  split at h
  · split at h
    · rename_i hc
      cases h
      exact goodRef_of_includes hc
    · split at h
      · cases h
        exact goodRef_of_isHttp (wrapB64_good _)
      · cases h
  · split at h
    · rename_i v hp
      cases h
      exact extractFromParts_good _ _ hp
    · cases h
  · cases h
  · cases h

theorem reconcileFromMessage_good (e : Envelope) (s : String)
    (h : reconcileFromMessage e = Except.ok s) : goodImageRef s = true := by
  unfold reconcileFromMessage at h
  split at h
  · split at h
    · rename_i v hu
      cases h
      exact extractFromEntry_good _ _ hu
    · exact reconcileContent_good _ s h
  · exact reconcileContent_good _ s h

theorem generateImageReconcile_good (e : Envelope) (s : String)
    (h : generateImageReconcile e = Except.ok s) : goodImageRef s = true := by
  unfold generateImageReconcile at h
  split at h
  · split at h
    · rename_i v hu
      cases h
      exact extractFromEntry_good _ _ hu
    · exact reconcileFromMessage_good e s h
  · exact reconcileFromMessage_good e s h

theorem jsSlice0_length_le (s : String) (n : Nat) :
    (jsSlice0 s n).length ≤ n := by
  show (s.data.take n).length ≤ n
  simp

theorem reconcileContent_err (c : MessageContent) (err : GenImageError)
    (h : reconcileContent c = Except.error err) (p : String)
    (hp : errorPreview err = some p) : p.length ≤ 200 := by
  unfold reconcileContent at h
  split at h
  · split at h
    · cases h
    · split at h
      · cases h
      · cases h
        cases hp
        exact jsSlice0_length_le _ _
  · split at h
    · cases h
    · cases h
      cases hp
      exact jsSlice0_length_le _ _
  · cases h
    cases hp
  · cases h
    cases hp
    exact jsSlice0_length_le _ _

theorem reconcileFromMessage_err (e : Envelope) (err : GenImageError)
    (h : reconcileFromMessage e = Except.error err) (p : String)
    (hp : errorPreview err = some p) : p.length ≤ 200 := by
  unfold reconcileFromMessage at h
  split at h
  · split at h
    · cases h
    · exact reconcileContent_err _ err h p hp
  · exact reconcileContent_err _ err h p hp

theorem generateImageReconcile_err (e : Envelope) (err : GenImageError)
    (h : generateImageReconcile e = Except.error err) (p : String)
    (hp : errorPreview err = some p) : p.length ≤ 200 := by
  unfold generateImageReconcile at h
  split at h
  · split at h
    · cases h
    · exact reconcileFromMessage_err e err h p hp
  · exact reconcileFromMessage_err e err h p hp

/-! ## Claim C1 -/

/-- C1 (amended): every image reference the reconciliation step of
generateImage returns either starts with data:image or http (rules 1, 2, 4
and the wrapped results) or, in the verbatim string branch of rule 3, at
least contains data:image; every failure that carries a text preview carries
at most 200 characters of it; and the refusal-text envelope fails with the
text-only error carrying the full refusal text as preview, which contains
the expected fragment. -/
theorem c1_theorem :
    (∀ e s, generateImageReconcile e = Except.ok s → goodImageRef s = true)
  ∧ (∀ e err p, generateImageReconcile e = Except.error err →
      errorPreview err = some p → p.length ≤ 200)
  ∧ generateImageReconcile envSorry
      = Except.error (GenImageError.noImageText sorryContent)
  ∧ jsIncludes sorryContent "Sorry, I can\x27t generate" = true := by
  refine ⟨fun e s h => generateImageReconcile_good e s h,
    fun e err p h hp => generateImageReconcile_err e err h p hp,
    by decide, by decide⟩

/-- C1 witness: the first conjunct of c1_theorem applied to a concrete
well-formed envelope. -/
theorem c1_witness : goodImageRef "data:image/png;base64,XYZ" = true :=
  c1_theorem.1 envOk "data:image/png;base64,XYZ" (by decide)

/-- C1 counterexample: an envelope matched by the string-content rule whose
accepted reference starts with neither data:image nor http, refuting the
claim that every accepted shape yields a reference with one of those
prefixes. -/
theorem c1_counterexample :
    generateImageReconcile envC1
      = Except.ok "Result: data:image/png;base64,AAAA"
  ∧ startsWithStr "Result: data:image/png;base64,AAAA" "data:image" = false
  ∧ startsWithStr "Result: data:image/png;base64,AAAA" "http" = false := by
  decide

/-! ## Claim C2 -/

/-- C2 (amended): in the images-array entry extraction (rules 1 and 2) an
unprefixed url candidate of length at most 1000 is never accepted (control
falls to the b64 fallback) and one longer than 1000 is wrapped; the b64
candidates of rules 1, 2 and 4 are wrapped exactly when longer than 1000; in
rule 4 an unprefixed url candidate is never accepted and never wrapped,
whatever its length; and in the string-content rule 3 a string containing
data:image is returned verbatim whatever its length, wrapping additionally
requires the substring base64, and every other string — even one longer than
1000 characters — is rejected. -/
theorem c2_theorem :
    (∀ e u, entryUrl e = some u → isHttpOrDataImage u = false →
        (u.length ≤ 1000 → extractFromEntry e = b64FromEntry e)
      ∧ (1000 < u.length → extractFromEntry e = some (wrapB64 u)))
  ∧ (∀ e b, ImageEntry.b64_json e = some b →
        (b.length ≤ 1000 → b64FromEntry e = none)
      ∧ (1000 < b.length → b64FromEntry e = some (wrapB64 b)))
  ∧ (∀ p u, isImagePartType p.type = true → partUrl p = some u →
        isHttpOrDataImage u = false →
        extractFromPart p = extractB64FromPart p)
  ∧ (∀ p b, partB64 p = some b →
        (b.length ≤ 1000 → extractB64FromPart p = none)
      ∧ (1000 < b.length → extractB64FromPart p = some (wrapB64 b)))
  ∧ (∀ s, jsIncludes s "data:image" = true →
        reconcileContent (MessageContent.str s) = Except.ok s)
  ∧ (∀ s, jsIncludes s "data:image" = false → jsIncludes s "base64" = true →
        1000 < s.length →
        reconcileContent (MessageContent.str s) = Except.ok (wrapB64 s))
  ∧ (∀ s, jsIncludes s "data:image" = false →
        (jsIncludes s "base64" = false ∨ s.length ≤ 1000) →
        reconcileContent (MessageContent.str s)
          = Except.error (GenImageError.noImageText (jsSlice0 s 200))) := by
  refine ⟨?_, ?_, ?_, ?_, ?_, ?_, ?_⟩
  · intro e u hu hp
    constructor
    · intro hlen
      have h1 : ¬ (1000 < u.length) := by omega
      simp [extractFromEntry, hu, hp, h1]
    · intro hlen
      simp [extractFromEntry, hu, hp, hlen]
  · intro e b hb
    constructor
    · intro hlen
      have h1 : ¬ (1000 < b.length) := by omega
      simp [b64FromEntry, hb, h1]
    · intro hlen
      simp [b64FromEntry, hb, hlen]
  · intro p u ht hu hp
    simp [extractFromPart, ht, hu, hp]
  · intro p b hb
    constructor
    · intro hlen
      have h1 : ¬ (1000 < b.length) := by omega
      simp [extractB64FromPart, hb, h1]
    · intro hlen
      simp [extractB64FromPart, hb, hlen]
  · intro s hs
    simp [reconcileContent, hs]
  · intro s hs hb hlen
    simp [reconcileContent, hs, hb, hlen]
  · intro s hs hrest
    rcases hrest with hb | hlen
    · simp [reconcileContent, hs, hb]
    · have h1 : ¬ (1000 < s.length) := by omega
      simp [reconcileContent, hs, h1]

/-- C2 witness: the b64 fallback of an images-array entry rejects a short
candidate. -/
theorem c2_witness : b64FromEntry ⟨none, some "xyz"⟩ = none :=
  (c2_theorem.2.1 ⟨none, some "xyz"⟩ "xyz" rfl).1 (by decide)

/-- C2 counterexample: a 1001-character unprefixed string in the
string-content branch is rejected with a text-only error instead of being
wrapped as data:image/png;base64, refuting the claim that every over-1000
string with no recognizable prefix is wrapped. -/
theorem c2_counterexample :
    generateImageReconcile envC2
      = Except.error
          (GenImageError.noImageText (String.mk (List.replicate 200 'a')))
  ∧ 1000 < longAs.length
  ∧ isHttpOrDataImage longAs = false := by
  decide

/-! ## Claim C3 -/

/-- C3: with maxRetries 3 and baseDelayMs 800, a permanently failing
operation is invoked exactly 4 times (attempts 0 to 3), the final error is
the one of the last attempt, the backoff delays are 800 times 2 to the n plus
the jitter of attempt n — 800, 1600, 3200 ignoring jitter — and with jitter
below 200 the actual delays are monotonically non-decreasing. -/
theorem c3_theorem {T : Type} (op : Nat → Except String T)
    (jitter : Nat → Nat) (hfail : ∀ n, ∃ e, op n = Except.error e)
    (hj : ∀ n, jitter n < 200) :
    (generateSingleImageWithRetry op jitter 3 800).calls = 4
  ∧ (generateSingleImageWithRetry op jitter 3 800).result = op 3
  ∧ (generateSingleImageWithRetry op jitter 3 800).delays
      = [800 * 2 ^ 0 + jitter 0, 800 * 2 ^ 1 + jitter 1,
         800 * 2 ^ 2 + jitter 2]
  ∧ List.Chain' (· ≤ ·) (generateSingleImageWithRetry op jitter 3 800).delays
    := by
  obtain ⟨e0, h0⟩ := hfail 0
  obtain ⟨e1, h1⟩ := hfail 1
  obtain ⟨e2, h2⟩ := hfail 2
  obtain ⟨e3, h3⟩ := hfail 3
  have key : generateSingleImageWithRetry op jitter 3 800
      = { result := Except.error e3, calls := 4,
          delays := [800 * 2 ^ 0 + jitter 0, 800 * 2 ^ 1 + jitter 1,
            800 * 2 ^ 2 + jitter 2] } := by
    simp [generateSingleImageWithRetry, retryAux, h0, h1, h2, h3]
  rw [key, h3]
  have j0 := hj 0
  have j1 := hj 1
  have j2 := hj 2
  refine ⟨rfl, rfl, rfl, ?_⟩
  simp only [List.chain'_cons, List.chain'_singleton, and_true]
  constructor
  · omega
  · omega

/-- C3 witness: a concretely always-failing operation with zero jitter is
called exactly 4 times. -/
theorem c3_witness :
    (generateSingleImageWithRetry
      (fun _ => (Except.error "boom" : Except String Unit)) (fun _ => 0)
      3 800).calls = 4 :=
  (c3_theorem (fun _ => Except.error "boom") (fun _ => 0)
    (fun _ => ⟨"boom", rfl⟩) (fun _ => Nat.zero_lt_succ _)).1

/-! ## Claim C4 -/

/-- C4: an attempt whose operation does not settle strictly before the fixed
35-second deadline fails with the timeout error, and withTimeout releases its
timer on the timeout path and on every completion path alike. -/
theorem c4_theorem {T : Type} (behaviors : Nat → OpBehavior T) (n : Nat)
    (h : ∀ t, settleTime (behaviors n) = some t → 35000 ≤ t) :
    attemptWithTimeout behaviors n = Except.error timeoutMessage
  ∧ (withTimeout (behaviors n) 35000).timerCleared = true
  ∧ (∀ (b : OpBehavior T) (ms : Nat),
      (withTimeout b ms).timerCleared = true) := by
  refine ⟨?_, ?_, ?_⟩
  · unfold attemptWithTimeout
    cases hb : behaviors n with
    | resolves t v =>
      have ht := h t (by rw [hb]; rfl)
      simp [withTimeout, Nat.not_lt.mpr ht]
    | rejects t e =>
      have ht := h t (by rw [hb]; rfl)
      simp [withTimeout, Nat.not_lt.mpr ht]
    | never => simp [withTimeout]
  · cases behaviors n with
    | resolves t v =>
      simp only [withTimeout]
      split <;> rfl
    | rejects t e =>
      simp only [withTimeout]
      split <;> rfl
    | never => rfl
  · intro b ms
    cases b with
    | resolves t v =>
      simp only [withTimeout]
      split <;> rfl
    | rejects t e =>
      simp only [withTimeout]
      split <;> rfl
    | never => rfl

/-- C4 witness: an attempt that never settles times out. -/
theorem c4_witness :
    attemptWithTimeout (fun _ => (OpBehavior.never : OpBehavior Unit)) 0
      = Except.error timeoutMessage :=
  (c4_theorem (fun _ => OpBehavior.never) 0
    (fun t ht => by simp [settleTime] at ht)).1

/-! ## Batch bookkeeping lemmas -/

theorem pass1_results (stale : List String)
    (g1 : Storyboard → Option String) :
    ∀ (sbs : List Storyboard) (st : BatchState),
      (sbs.foldl (pass1Step stale g1) st).results
        = st.results
          ++ sbs.filterMap (fun sb => (g1 sb).map (mkImage sb)) := by
  intro sbs
  induction sbs with
  | nil => intro st; simp
  | cons sb rest ih =>
    intro st
    rw [List.foldl_cons, ih]
    cases hg : g1 sb with
    | some url => simp [pass1Step, hg]
    | none => simp [pass1Step, hg]

theorem pass1_failedStoryboards (stale : List String)
    (g1 : Storyboard → Option String) :
    ∀ (sbs : List Storyboard) (st : BatchState),
      (sbs.foldl (pass1Step stale g1) st).failedStoryboards
        = st.failedStoryboards
          ++ sbs.filter (fun sb => (g1 sb).isNone) := by
  intro sbs
  induction sbs with
  | nil => intro st; simp
  | cons sb rest ih =>
    intro st
    rw [List.foldl_cons, ih]
    cases hg : g1 sb with
    | some url => simp [pass1Step, hg]
    | none => simp [pass1Step, hg]

theorem pass2_results (stale : List String)
    (g2 : Storyboard → Option String) :
    ∀ (sbs : List Storyboard) (st : BatchState),
      (sbs.foldl (pass2Step stale g2) st).results
        = st.results
          ++ sbs.filterMap (fun sb => (g2 sb).map (mkImage sb)) := by
  intro sbs
  induction sbs with
  | nil => intro st; simp
  | cons sb rest ih =>
    intro st
    rw [List.foldl_cons, ih]
    cases hg : g2 sb with
    | some url => simp [pass2Step, hg]
    | none => simp [pass2Step, hg]

theorem ids_of_filterMap (g : Storyboard → Option String)
    (l : List Storyboard) :
    ((l.filterMap (fun sb => (g sb).map (mkImage sb))).map
        (fun i => i.storyboardId))
      = (l.filter (fun sb => (g sb).isSome)).map Storyboard.id := by
  induction l with
  | nil => rfl
  | cons sb rest ih => cases hg : g sb <;> simp [hg, ih, mkImage]

theorem batch_results_ids (stale : List String)
    (g1 g2 : Storyboard → Option String) (sbs : List Storyboard) :
    ((generateAllImagesModel stale g1 g2 sbs).results.map
        (fun i => i.storyboardId))
      = (sbs.filter (fun sb => (g1 sb).isSome)).map Storyboard.id
        ++ ((sbs.filter (fun sb => (g1 sb).isNone)).filter
            (fun sb => (g2 sb).isSome)).map Storyboard.id := by
  unfold generateAllImagesModel
  rw [pass2_results, pass1_results, pass1_failedStoryboards]
  simp only [List.nil_append, List.map_append, ids_of_filterMap]

/-! ## Claim C5 -/

/-- C5 (amended): the batch orchestrator never ends a run with two result
entries for the same storyboard id when the input storyboard ids are
distinct — but only because its consolidated second pass walks exactly the
first-pass failures, which are disjoint from the first-pass successes; the
fold itself appends without checking.  The by-id upsert lives in the separate
bulk failed-retry and manual regenerate paths, whose upsertImage replaces the
entry found by findIdx? in place, preserving the list length. -/
theorem c5_theorem :
    (∀ (stale : List String) (g1 g2 : Storyboard → Option String)
        (sbs : List Storyboard), (sbs.map Storyboard.id).Nodup →
      ((generateAllImagesModel stale g1 g2 sbs).results.map
          (fun i => i.storyboardId)).Nodup)
  ∧ (∀ (images : List GeneratedImage) (img : GeneratedImage) (idx : Nat),
      images.findIdx? (fun i => i.storyboardId == img.storyboardId)
        = some idx →
      upsertImage images img = images.set idx img
      ∧ (upsertImage images img).length = images.length) := by
  constructor
  · intro stale g1 g2 sbs h
    rw [batch_results_ids]
    have hleft :
        ((sbs.filter (fun sb => (g1 sb).isSome)).map Storyboard.id).Nodup :=
      List.Nodup.sublist (List.Sublist.map _ (List.filter_sublist sbs)) h
    have hright :
        (((sbs.filter (fun sb => (g1 sb).isNone)).filter
            (fun sb => (g2 sb).isSome)).map Storyboard.id).Nodup := by
      refine List.Nodup.sublist (List.Sublist.map _ ?_) h
      exact List.Sublist.trans (List.filter_sublist _) (List.filter_sublist _)
    refine List.Nodup.append hleft hright ?_
    intro x hx1 hx2
    obtain ⟨sb1, hm1, rfl⟩ := List.mem_map.mp hx1
    obtain ⟨sb2, hm2, hid⟩ := List.mem_map.mp hx2
    obtain ⟨hsb1, hp1⟩ := List.mem_filter.mp hm1
    obtain ⟨hm2a, hp2⟩ := List.mem_filter.mp hm2
    obtain ⟨hsb2, hq2⟩ := List.mem_filter.mp hm2a
    have heq : sb2 = sb1 := List.inj_on_of_nodup_map h hsb2 hsb1 hid
    rw [heq] at hq2
    rw [Option.isNone_iff_eq_none.mp hq2] at hp1
    cases hp1
  · intro images img idx hidx
    have hup : upsertImage images img = images.set idx img := by
      unfold upsertImage
      rw [hidx]
    refine ⟨hup, ?_⟩
    rw [hup]
    exact List.length_set _ _ _

/-- C5 witness: a two-scene batch in which the first scene fails the first
pass and succeeds the retry still yields distinct result ids. -/
theorem c5_witness :
    ((generateAllImagesModel []
        (fun sb => if sb.id == "s1" then none else some "http://a.png")
        (fun _ => some "http://b.png")
        [sbOne, sbTwo]).results.map
        (fun i => i.storyboardId)).Nodup :=
  c5_theorem.1 []
    (fun sb => if sb.id == "s1" then none else some "http://a.png")
    (fun _ => some "http://b.png") _ (by decide)

/-- C5 counterexample: the consolidated second pass folds a new success into
a result list that already holds an entry for the same storyboard id by
appending, producing two entries with that id — refuting the claim that this
fold replaces by id. -/
theorem c5_counterexample :
    (pass2Step [] (fun _ => some "http://new.png")
      { results := [imgOld], failedStoryboards := [], failedState := [] }
      sbOne).results.length = 2
  ∧ ((pass2Step [] (fun _ => some "http://new.png")
      { results := [imgOld], failedStoryboards := [], failedState := [] }
      sbOne).results.map (fun i => i.storyboardId)) = ["s1", "s1"] := by
  decide

/-! ## Claim C6 -/

/-- C6: concrete run refuting the exclusivity invariant in the code: with an
empty stale snapshot, a single scene that fails the whole first pass and then
succeeds on the consolidated retry ends the run with its image in the result
list while its id is still in the failed-set state, because the removal step
consults the stale closure snapshot instead of the current state. -/
theorem c6_theorem :
    ((generateAllImagesModel [] (fun _ => none)
        (fun _ => some "http://retry.png") [sbOne]).results.map
        (fun i => i.storyboardId)) = ["s1"]
  ∧ "s1" ∈ (generateAllImagesModel [] (fun _ => none)
      (fun _ => some "http://retry.png") [sbOne]).failedState := by
  decide

/-! ## Claim C7 -/

/-- C7: when the result list holds an entry with the regenerated storyboard
id, the upsert of regenerateImage replaces the entry at the first matching
position in place — same length, new image at that position, every other
position unchanged — and appends only when no entry matches. -/
theorem c7_theorem (images : List GeneratedImage) (img : GeneratedImage) :
    (∀ idx,
      images.findIdx? (fun i => i.storyboardId == img.storyboardId)
        = some idx →
        (upsertImage images img).length = images.length
      ∧ (upsertImage images img)[idx]? = some img
      ∧ ∀ j, j ≠ idx → (upsertImage images img)[j]? = images[j]?)
  ∧ (images.findIdx? (fun i => i.storyboardId == img.storyboardId) = none →
      upsertImage images img = images ++ [img]) := by
  constructor
  · intro idx hidx
    obtain ⟨hlt, -, -⟩ := List.findIdx?_eq_some_iff_getElem.mp hidx
    have hup : upsertImage images img = images.set idx img := by
      unfold upsertImage
      rw [hidx]
    rw [hup]
    refine ⟨List.length_set _ _ _, List.getElem?_set_self hlt, ?_⟩
    intro j hj
    exact List.getElem?_set_ne (fun hh => hj hh.symm)
  · intro hnone
    unfold upsertImage
    rw [hnone]

/-- C7 witness: replacing the single entry of a one-element list keeps the
length and stores the new image at position 0. -/
theorem c7_witness :
    (upsertImage [imgOld] (mkImage sbOne "http://new.png")).length = 1
  ∧ (upsertImage [imgOld] (mkImage sbOne "http://new.png"))[0]?
      = some (mkImage sbOne "http://new.png") := by
  have h := (c7_theorem [imgOld] (mkImage sbOne "http://new.png")).1 0
    (by decide)
  exact ⟨h.1, h.2.1⟩

/-! ## Claim C9 -/

/-- C9: with no character image and no character prompt and a non-empty
story, generateSingleImage augments the scene prompt with an identity hint
built from exactly the first 300 characters of the story (so a 500-character
story contributes characters 0 to 299), attaching no reference image; with a
character image present, the image is resolved to base64 and attached and the
prompt gets no hint. -/
theorem c9_theorem (oracle : String → String) (cImg cPr : Option String)
    (story : String) (sb : Storyboard) :
    (cImg = none → cPr = none → story ≠ "" →
      generateSingleImageRequest oracle cImg cPr story sb
        = { finalPrompt := scenePrompt sb ++ "\n\n"
              ++ ("Use this as the main character identity: "
                ++ jsSlice0 story 300
                ++ ". Keep the identity consistent across all scenes."),
            referenceImageBase64 := none }
      ∧ (story.length = 500 → (jsSlice0 story 300).length = 300))
  ∧ (∀ u, cImg = some u → u ≠ "" →
      generateSingleImageRequest oracle cImg cPr story sb
        = { finalPrompt := scenePrompt sb,
            referenceImageBase64 :=
              some (resolveReferenceBase64 oracle u) }) := by
  constructor
  · intro h1 h2 h3
    subst h1
    subst h2
    have hs : (story == "") = false := beq_eq_false_iff_ne.mpr h3
    have hslice : (jsSlice0 story 300 == "") = false := by
      refine beq_eq_false_iff_ne.mpr ?_
      intro hh
      apply h3
      have hdata : story.data.take 300 = [] := congrArg String.data hh
      have hempty : story.data = [] := by
        rcases List.take_eq_nil_iff.mp hdata with h | h
        · exact absurd h (by decide)
        · exact h
      cases story with
      | mk l =>
        change l = [] at hempty
        cases hempty
        rfl
    constructor
    · simp [generateSingleImageRequest, jsTruthyOpt, hs, hslice]
    · intro hlen
      show (story.data.take 300).length = 300
      rw [List.length_take]
      have : story.data.length = 500 := hlen
      omega
  · intro u hu hne
    subst hu
    have hu2 : (u == "") = false := beq_eq_false_iff_ne.mpr hne
    simp [generateSingleImageRequest, jsTruthyOpt, hu2]

/-- C9 witness: the first conjunct at a concrete 500-character story. -/
theorem c9_witness :
    generateSingleImageRequest (fun _ => "") none none story500 sbOne
      = { finalPrompt := scenePrompt sbOne ++ "\n\n"
            ++ ("Use this as the main character identity: "
              ++ jsSlice0 story500 300
              ++ ". Keep the identity consistent across all scenes."),
          referenceImageBase64 := none }
  ∧ (jsSlice0 story500 300).length = 300 := by
  have h := (c9_theorem (fun _ => "") none none story500 sbOne).1 rfl rfl
    (by decide)
  exact ⟨h.1, h.2 (by decide)⟩

/-! ## Index lemmas for the data-URL parser -/

theorem firstIdx_append_of_not_mem (c : Char) (xs ys : List Char)
    (h : c ∉ xs) :
    firstIdx c (xs ++ ys) = (firstIdx c ys).map (fun n => xs.length + n) := by
  induction xs with
  | nil =>
    simp only [List.nil_append, List.length_nil]
    cases firstIdx c ys <;> simp
  | cons d t ih =>
    have hd : (d == c) = false :=
      beq_eq_false_iff_ne.mpr (fun hh => h (hh ▸ List.mem_cons_self d t))
    rw [List.cons_append]
    simp only [firstIdx, hd, Bool.false_eq_true, if_false]
    rw [ih (fun hm => h (List.mem_cons_of_mem d hm))]
    cases firstIdx c ys with
    | none => simp
    | some k =>
      simp
      omega

theorem firstIdx_append_of_found (c : Char) (xs ys : List Char) (n : Nat)
    (h : firstIdx c xs = some n) : firstIdx c (xs ++ ys) = some n := by
  induction xs generalizing n with
  | nil => cases h
  | cons d t ih =>
    rw [List.cons_append]
    simp only [firstIdx] at h ⊢
    by_cases hd : (d == c) = true
    · simp only [hd, if_true] at h ⊢
      exact h
    · simp only [hd, Bool.false_eq_true, if_false] at h ⊢
      obtain ⟨mm, hmm, rfl⟩ := Option.map_eq_some'.mp h
      rw [ih mm hmm]
      rfl

theorem jsClamp_coe (len n : Nat) : jsClamp len (n : Int) = min n len := by
  unfold jsClamp
  omega

theorem jsSubstring_nat (s : List Char) (a b : Nat) (hab : a ≤ b)
    (hb : b ≤ s.length) :
    jsSubstring s (a : Int) (b : Int) = (s.take b).drop a := by
  unfold jsSubstring
  rw [jsClamp_coe, jsClamp_coe, Nat.min_eq_left (le_trans hab hb),
    Nat.min_eq_left hb]
  simp [hab]

/-! ## Claim C10 -/

/-- C10: for every mime type containing neither semicolon nor comma and
every base64 payload, getBase64FromImageUrl inverts the data-URL wrapping
without a fetch: the text between data: and the first semicolon is the mime
type and the text after the first comma is the payload. -/
theorem c10_theorem (m b : List Char) (hm1 : ';' ∉ m) (hm2 : ',' ∉ m) :
    getBase64FromImageUrl ("data:".data ++ (m ++ (";base64,".data ++ b)))
      = FetchResult.parsed b m := by
  have hassoc : "data:".data ++ (m ++ (";base64,".data ++ b))
      = ("data:".data ++ m) ++ (";base64,".data ++ b) := by
    rw [List.append_assoc]
  have hpm : ("data:".data ++ m).length = 5 + m.length := by
    simp [List.length_append]
    omega
  have hsemi : firstIdx ';' ("data:".data ++ (m ++ (";base64,".data ++ b)))
      = some (5 + m.length) := by
    have h1 : ';' ∉ "data:".data ++ m := by
      intro hmem
      rcases List.mem_append.mp hmem with h | h
      · exact absurd h (by decide)
      · exact hm1 h
    rw [hassoc, firstIdx_append_of_not_mem _ _ _ h1,
      firstIdx_append_of_found ';' ";base64,".data b 0 (by decide)]
    simp [hpm]
    omega
  have hcomma : firstIdx ',' ("data:".data ++ (m ++ (";base64,".data ++ b)))
      = some (5 + m.length + 7) := by
    have h1 : ',' ∉ "data:".data ++ m := by
      intro hmem
      rcases List.mem_append.mp hmem with h | h
      · exact absurd h (by decide)
      · exact hm2 h
    rw [hassoc, firstIdx_append_of_not_mem _ _ _ h1,
      firstIdx_append_of_found ',' ";base64,".data b 7 (by decide)]
    simp [hpm]
    omega
  have hlen : ("data:".data ++ (m ++ (";base64,".data ++ b))).length
      = 13 + m.length + b.length := by
    simp [List.length_append]
    omega
  have hprefix13 : (("data:".data ++ m) ++ ";base64,".data).length
      = 13 + m.length := by
    simp [List.length_append]
    omega
  have hc1 : ((5 + m.length + 7 : Nat) : Int) + 1
      = ((13 + m.length : Nat) : Int) := by
    push_cast
    omega
  have hbase : jsSubstring ("data:".data ++ (m ++ (";base64,".data ++ b)))
      ((13 + m.length : Nat) : Int)
      ((("data:".data ++ (m ++ (";base64,".data ++ b))).length : Nat) : Int)
      = b := by
    rw [jsSubstring_nat _ _ _ (by rw [hlen]; omega) (le_refl _)]
    rw [List.take_length]
    have hre : "data:".data ++ (m ++ (";base64,".data ++ b))
        = (("data:".data ++ m) ++ ";base64,".data) ++ b := by
      simp [List.append_assoc]
    rw [hre, List.drop_left' hprefix13]
  have hmime : jsSubstring ("data:".data ++ (m ++ (";base64,".data ++ b)))
      ((5 : Nat) : Int) ((5 + m.length : Nat) : Int) = m := by
    rw [jsSubstring_nat _ _ _ (by omega) (by rw [hlen]; omega)]
    rw [hassoc, List.take_left' hpm, List.drop_left' (by decide)]
  unfold getBase64FromImageUrl
  rw [if_pos (isPrefixOf_append_self "data:".data
    (m ++ (";base64,".data ++ b)))]
  simp only [jsIndexOf, hsemi, hcomma]
  rw [hc1]
  rw [show ((5 : Int)) = (((5 : Nat)) : Int) from rfl]
  rw [hbase, hmime]

/-- C10 witness: the theorem at a concrete mime type and payload. -/
theorem c10_witness :
    getBase64FromImageUrl
        ("data:".data ++ ("image/png".data ++ (";base64,".data ++ "QUJD".data)))
      = FetchResult.parsed "QUJD".data "image/png".data :=
  c10_theorem "image/png".data "QUJD".data (by decide) (by decide)

/-! ## Claim C8 -/

/-- C8 (amended): the storyboard-breakdown caller extracts the greedy span
from the first opening brace to the last closing brace of the reply (not the
first balanced block), tolerating prose before the first brace and brace-free
prose after the last; it fails with the AI-response-format error when no such
span exists or the span does not parse as JSON, with the format-incorrect
error when the parsed object lacks an array storyboards field, and succeeds
with the storyboards array otherwise. -/
theorem c8_theorem :
    (∀ (pre body post : List Char), lbraceChar ∉ pre → rbraceChar ∉ post →
        body.head? = some lbraceChar → body.getLast? = some rbraceChar →
        extractJsonBlock (pre ++ (body ++ post)) = some body)
  ∧ (∀ text : String, extractJsonBlock text.data = none →
      generateStoryboardsExtract text = Except.error "AI响应格式错误，请重试")
  ∧ (∀ (text : String) (block : List Char),
      extractJsonBlock text.data = some block → jsonParseChars block = none →
      generateStoryboardsExtract text = Except.error "AI响应格式错误，请重试")
  ∧ (∀ (text : String) (block : List Char) (j : Json),
      extractJsonBlock text.data = some block →
      jsonParseChars block = some j → storyboardsField j = none →
      generateStoryboardsExtract text = Except.error "AI响应格式不正确")
  ∧ (∀ (text : String) (block : List Char) (j : Json) (l : List Json),
      extractJsonBlock text.data = some block →
      jsonParseChars block = some j → storyboardsField j = some l →
      generateStoryboardsExtract text = Except.ok l) := by
  refine ⟨?_, ?_, ?_, ?_, ?_⟩
  · intro pre body post hpre hpost hh hl
    have hpre' : ∀ a ∈ pre, (a != lbraceChar) = true := fun a ha =>
      bne_iff_ne.mpr (fun hh2 => hpre (hh2 ▸ ha))
    have hpost' : ∀ a ∈ post.reverse, (a != rbraceChar) = true := fun a ha =>
      bne_iff_ne.mpr (fun hh2 => hpost (hh2 ▸ List.mem_reverse.mp ha))
    cases body with
    | nil => cases hh
    | cons c btail =>
      have hc : c = lbraceChar := Option.some.inj hh
      subst hc
      rcases List.eq_nil_or_concat btail with hbt | ⟨ys, y, rfl⟩
      · subst hbt
        exact absurd (Option.some.inj hl) (by decide)
      · simp only [List.concat_eq_append] at hl ⊢
        have hy : y = rbraceChar := by
          rw [show lbraceChar :: (ys ++ [y]) = (lbraceChar :: ys) ++ [y]
            from rfl, List.getLast?_concat] at hl
          exact Option.some.inj hl
        subst hy
        have hdrop : (pre ++ (lbraceChar :: (ys ++ (rbraceChar :: post)))
            ).dropWhile (fun c => c != lbraceChar)
            = lbraceChar :: (ys ++ (rbraceChar :: post)) := by
          rw [List.dropWhile_append_of_pos hpre']
          simp [List.dropWhile_cons]
        have hrev : ((ys ++ (rbraceChar :: post)).reverse).dropWhile
            (fun d => d != rbraceChar) = rbraceChar :: ys.reverse := by
          rw [List.reverse_append, List.reverse_cons, List.append_assoc,
            List.dropWhile_append_of_pos hpost']
          simp [List.dropWhile_cons]
        simp only [List.cons_append, List.append_assoc, List.nil_append]
        unfold extractJsonBlock
        rw [hdrop]
        dsimp only
        rw [hrev]
        simp
  · intro text h
    simp only [generateStoryboardsExtract, h]
  · intro text block h1 h2
    simp only [generateStoryboardsExtract, h1, h2]
  · intro text block j h1 h2 h3
    simp only [generateStoryboardsExtract, h1, h2, h3]
  · intro text block j l h1 h2 h3
    simp only [generateStoryboardsExtract, h1, h2, h3]

/-- C8 witness: the prose-tolerance conjunct at a concrete reply. -/
theorem c8_witness :
    extractJsonBlock ("json: ".data
        ++ ("\x7b\"storyboards\":[]\x7d".data ++ " done".data))
      = some "\x7b\"storyboards\":[]\x7d".data :=
  c8_theorem.1 "json: ".data "\x7b\"storyboards\":[]\x7d".data " done".data
    (by decide) (by decide) (by decide) (by decide)

/-- C8 counterexample: a reply holding a valid storyboards object followed by
prose containing a second brace pair; the source pipeline fails with the
format error because its greedy span swallows the trailing prose, while the
spec-described first-balanced-block pipeline succeeds — refuting the claim
that the caller extracts the first balanced block. -/
theorem c8_counterexample :
    generateStoryboardsExtract textC8 = Except.error "AI响应格式错误，请重试"
  ∧ specStoryboardsExtract textC8 = Except.ok [] :=
  ⟨rfl, rfl⟩

end Banano
